import Mathlib

/-!
Shallow embedding of the Vc scalar (one-lane) reference backend,
`src/scalar/vector.h`, namespace `Vc::Scalar`.

The backend's `Vector<T>` holds a single element `m_data : T` (`Size = 1`);
`Mask<T>` holds a single boolean flag.  C++ template parameter `T` becomes a
Lean type parameter `α`; the builtin operators of `T` become typeclass
operations on `α`.  Functions that mutate `*this` or reference parameters are
written in state-passing style: they return the updated values explicitly.
-/

namespace Vc
namespace Scalar

/-- Modelled from the spec: `Scalar::Mask<T>` lives in `src/scalar/mask.h`,
which is not among the sources.  Per the spec it carries one boolean flag per
lane, the reference backend has `Size = 1`, so a single `Bool`; `data()`
returns the flag, `isFull()` is true iff every lane is true, and conversion
to `bool` (used by `return m1;` in `Vector::pack`) reads the flag. -/
structure Mask where
  m_data : Bool
deriving DecidableEq

/-- `Mask::data()`: the raw flag. -/
def Mask.data (m : Mask) : Bool := m.m_data

/-- Modelled from the spec: `Mask::isFull()` is true iff all lanes are true;
with one lane this is the flag itself. -/
def Mask.isFull (m : Mask) : Bool := m.m_data

/-- `Scalar::Vector<T>` (src/scalar/vector.h line 42): one lane,
`VectorType m_data`. -/
structure Vector (α : Type) where
  m_data : α
deriving DecidableEq

namespace Vector

/-- The broadcast constructor `Vector(EntryType a) : m_data(a)`
(src/scalar/vector.h line 97). -/
def broadcast {α : Type} (a : α) : Vector α := ⟨a⟩

/-- `Vector::data()` (line 65). -/
def data {α : Type} (v : Vector α) : α := v.m_data

/-- Modelled from the spec: the static `Vector::Zero()` generator comes from
`common/generalinterface.h`, which is not among the sources; per the spec a
vector "default-constructs to zero-filled" and `shifted(Size)` "equals an
all-zero vector", so `Zero()` broadcasts the additive identity. -/
def zero {α : Type} [Zero α] : Vector α := ⟨0⟩

/-- Prefix `operator++` (line 144): `++m_data; return *this;`.  Returned as
(updated state, returned value); the C++ builtin `++` adds one. -/
def preIncrement {α : Type} [Add α] [One α] (v : Vector α) : Vector α × Vector α :=
  (⟨v.m_data + 1⟩, ⟨v.m_data + 1⟩)

/-- Prefix `operator--` (line 145): `--m_data; return *this;`. -/
def preDecrement {α : Type} [Sub α] [One α] (v : Vector α) : Vector α × Vector α :=
  (⟨v.m_data - 1⟩, ⟨v.m_data - 1⟩)

/-- Postfix `operator++(int)` (line 147): `return m_data++;` — returns a
vector built from the old value while the state advances by one. -/
def postIncrement {α : Type} [Add α] [One α] (v : Vector α) : Vector α × Vector α :=
  (⟨v.m_data + 1⟩, ⟨v.m_data⟩)

/-- Postfix `operator--(int)` (line 148): `return m_data--;`. -/
def postDecrement {α : Type} [Sub α] [One α] (v : Vector α) : Vector α × Vector α :=
  (⟨v.m_data - 1⟩, ⟨v.m_data⟩)

/-- `operator+` from the `OP` macro (lines 184-188):
`Vector(m_data + x.m_data)`. -/
def add {α : Type} [Add α] (v x : Vector α) : Vector α := ⟨v.m_data + x.m_data⟩

/-- `operator*` from the `OP` macro (lines 184-188):
`Vector(m_data * x.m_data)`. -/
def mul {α : Type} [Mul α] (v x : Vector α) : Vector α := ⟨v.m_data * x.m_data⟩

/-- `operator==` from the `OPcmp` macro (lines 191-193):
`Mask(m_data == x.m_data)`. -/
def cmpEq {α : Type} [DecidableEq α] (v x : Vector α) : Mask :=
  ⟨decide (v.m_data = x.m_data)⟩

/-- `operator>` from the `OPcmp` macro (lines 191-193):
`Mask(m_data > x.m_data)`. -/
def cmpGt {α : Type} [LT α] [∀ a b : α, Decidable (a < b)] (v x : Vector α) : Mask :=
  ⟨decide (x.m_data < v.m_data)⟩

/-- Compound `operator=` for `conditional_assign`: the implicitly generated
copy assignment replaces the whole vector. -/
def opAssign {α : Type} (_ : Vector α) (x : Vector α) : Vector α := x

/-- Compound `operator+=` from the `OP` macro (line 185):
`m_data += x.m_data; return *this;`. -/
def opPlusAssign {α : Type} [Add α] (v x : Vector α) : Vector α := ⟨v.m_data + x.m_data⟩

/-- Compound `operator-=` from the `OP` macro (line 185). -/
def opMinusAssign {α : Type} [Sub α] (v x : Vector α) : Vector α := ⟨v.m_data - x.m_data⟩

/-- Compound `operator*=` from the `OP` macro (line 185). -/
def opMultiplyAssign {α : Type} [Mul α] (v x : Vector α) : Vector α := ⟨v.m_data * x.m_data⟩

/-- Compound `operator/=` from the `OP` macro (line 185). -/
def opDivideAssign {α : Type} [Div α] (v x : Vector α) : Vector α := ⟨v.m_data / x.m_data⟩

/-- Compound `operator%=` from the `OP` macro (line 185). -/
def opRemainderAssign {α : Type} [Mod α] (v x : Vector α) : Vector α := ⟨v.m_data % x.m_data⟩

/-- Compound `operator^=` from the `OP` macro via `VC_ALL_BINARY` (line 185). -/
def opXorAssign {α : Type} [Xor α] (v x : Vector α) : Vector α := ⟨v.m_data ^^^ x.m_data⟩

/-- Compound `operator&=` from the `OP` macro via `VC_ALL_BINARY` (line 185). -/
def opAndAssign {α : Type} [AndOp α] (v x : Vector α) : Vector α := ⟨v.m_data &&& x.m_data⟩

/-- Compound `operator|=` from the `OP` macro via `VC_ALL_BINARY` (line 185). -/
def opOrAssign {α : Type} [OrOp α] (v x : Vector α) : Vector α := ⟨v.m_data ||| x.m_data⟩

/-- Compound `operator<<=` from the `OPshift` macro (line 179). -/
def opLeftShiftAssign {α : Type} [ShiftLeft α] (v x : Vector α) : Vector α :=
  ⟨v.m_data <<< x.m_data⟩

/-- Compound `operator>>=` from the `OPshift` macro (line 179). -/
def opRightShiftAssign {α : Type} [ShiftRight α] (v x : Vector α) : Vector α :=
  ⟨v.m_data >>> x.m_data⟩

/-- Result of `Vector::pack` (lines 214-222): the new state of `*this`, the
two mask reference parameters after the call, and the returned `bool`
(`v2` is taken by reference but never written). -/
structure PackResult (α : Type) where
  self : Vector α
  m1 : Mask
  m2 : Mask
  ret : Bool
deriving DecidableEq

/-- `Vector::pack(Mask &m1, Vector &v2, Mask &m2)` (lines 214-222):
if `!m1.data() && m2.data()` the vector absorbs `v2`, `m1` becomes true,
`m2` becomes false and `true` is returned; otherwise nothing changes and
`return m1;` yields the flag of `m1`. -/
def pack {α : Type} (v : Vector α) (m1 : Mask) (v2 : Vector α) (m2 : Mask) : PackResult α :=
  if !m1.data && m2.data then
    ⟨⟨v2.m_data⟩, ⟨true⟩, ⟨false⟩, true⟩
  else
    ⟨v, m1, m2, m1.data⟩

/-- The condition under which `pack` absorbs (the claim's "absorption"):
`m1` false and `m2` true, matching the guard on line 215. -/
def packAbsorbed (m1 m2 : Mask) : Bool := !m1.data && m2.data

/-- `Vector::min() const` (line 224). -/
def min {α : Type} (v : Vector α) : α := v.m_data

/-- `Vector::max() const` (line 225). -/
def max {α : Type} (v : Vector α) : α := v.m_data

/-- `Vector::product() const` (line 226). -/
def product {α : Type} (v : Vector α) : α := v.m_data

/-- `Vector::sum() const` (line 227). -/
def sum {α : Type} (v : Vector α) : α := v.m_data

/-- `Vector::min(Mask) const` (line 229): the mask parameter is unnamed and
ignored; the lane value is returned unconditionally. -/
def minMasked {α : Type} (v : Vector α) (_ : Mask) : α := v.m_data

/-- `Vector::max(Mask) const` (line 230): the mask parameter is unnamed and
ignored; the lane value is returned unconditionally. -/
def maxMasked {α : Type} (v : Vector α) (_ : Mask) : α := v.m_data

/-- `Vector::product(Mask m) const` (lines 231-238): the lane value if the
mask selects it, otherwise `EntryType(1)`. -/
def productMasked {α : Type} [One α] (v : Vector α) (m : Mask) : α :=
  if m.data then v.m_data else 1

/-- `Vector::sum(Mask m) const` (line 239): the lane value if the mask
selects it, otherwise `static_cast<EntryType>(0)`. -/
def sumMasked {α : Type} [Zero α] (v : Vector α) (m : Mask) : α :=
  if m.data then v.m_data else 0

/-- `Vector::shifted(int amount, Vector shiftIn)` (lines 241-244):
`VC_ASSERT(amount >= -1 && amount <= 1)` then
`amount == 0 ? *this : shiftIn`.  The debug assertion (`VC_ASSERT` comes
from `macros.h`, a debug-only `assert` per the spec) is modelled as `none`. -/
def shiftedFill {α : Type} (v : Vector α) (amount : Int) (shiftIn : Vector α) :
    Option (Vector α) :=
  if -1 ≤ amount ∧ amount ≤ 1 then
    some (if amount = 0 then v else shiftIn)
  else
    none

/-- `Vector::shifted(int amount)` (line 245):
`amount == 0 ? *this : Zero()` — no assertion at all in this overload. -/
def shifted {α : Type} [Zero α] (v : Vector α) (amount : Int) : Vector α :=
  if amount = 0 then v else zero

end Vector

/-- The value-taking tags of the `Operator` enumeration used by the first
`Vc_CONDITIONAL_ASSIGN` macro family (lines 428-438).  The enumeration itself
lives in a common header outside the sources; only these eleven tags select
an overload of the three-argument `conditional_assign`. -/
inductive AssignOperator where
  | Assign
  | PlusAssign
  | MinusAssign
  | MultiplyAssign
  | DivideAssign
  | RemainderAssign
  | XorAssign
  | AndAssign
  | OrAssign
  | LeftShiftAssign
  | RightShiftAssign
deriving DecidableEq

/-- The increment/decrement tags of the `Operator` enumeration used by the
second `Vc_CONDITIONAL_ASSIGN` macro family (lines 448-451). -/
inductive IncDecOperator where
  | PostIncrement
  | PreIncrement
  | PostDecrement
  | PreDecrement
deriving DecidableEq

/-- The unmasked compound operator selected by an `AssignOperator` tag:
`lhs op= rhs` for the respective symbol (macro table lines 428-438). -/
def applyAssignOp {α : Type} [Add α] [Sub α] [Mul α] [Div α] [Mod α] [Xor α]
    [AndOp α] [OrOp α] [ShiftLeft α] [ShiftRight α]
    (o : AssignOperator) (lhs rhs : Vector α) : Vector α :=
  match o with
  | .Assign => Vector.opAssign lhs rhs
  | .PlusAssign => Vector.opPlusAssign lhs rhs
  | .MinusAssign => Vector.opMinusAssign lhs rhs
  | .MultiplyAssign => Vector.opMultiplyAssign lhs rhs
  | .DivideAssign => Vector.opDivideAssign lhs rhs
  | .RemainderAssign => Vector.opRemainderAssign lhs rhs
  | .XorAssign => Vector.opXorAssign lhs rhs
  | .AndAssign => Vector.opAndAssign lhs rhs
  | .OrAssign => Vector.opOrAssign lhs rhs
  | .LeftShiftAssign => Vector.opLeftShiftAssign lhs rhs
  | .RightShiftAssign => Vector.opRightShiftAssign lhs rhs

/-- The three-argument `conditional_assign` family (macro lines 419-439):
each of the eleven expansions reads
`if (mask.isFull()) { lhs op= rhs; }` — the compound operator is applied
only under a full mask, otherwise `lhs` is untouched. -/
def conditional_assign {α : Type} [Add α] [Sub α] [Mul α] [Div α] [Mod α] [Xor α]
    [AndOp α] [OrOp α] [ShiftLeft α] [ShiftRight α]
    (o : AssignOperator) (lhs : Vector α) (mask : Mask) (rhs : Vector α) : Vector α :=
  match o with
  | .Assign => if mask.isFull then Vector.opAssign lhs rhs else lhs
  | .PlusAssign => if mask.isFull then Vector.opPlusAssign lhs rhs else lhs
  | .MinusAssign => if mask.isFull then Vector.opMinusAssign lhs rhs else lhs
  | .MultiplyAssign => if mask.isFull then Vector.opMultiplyAssign lhs rhs else lhs
  | .DivideAssign => if mask.isFull then Vector.opDivideAssign lhs rhs else lhs
  | .RemainderAssign => if mask.isFull then Vector.opRemainderAssign lhs rhs else lhs
  | .XorAssign => if mask.isFull then Vector.opXorAssign lhs rhs else lhs
  | .AndAssign => if mask.isFull then Vector.opAndAssign lhs rhs else lhs
  | .OrAssign => if mask.isFull then Vector.opOrAssign lhs rhs else lhs
  | .LeftShiftAssign => if mask.isFull then Vector.opLeftShiftAssign lhs rhs else lhs
  | .RightShiftAssign => if mask.isFull then Vector.opRightShiftAssign lhs rhs else lhs

/-- The increment/decrement operator selected by an `IncDecOperator` tag,
as (updated lhs, returned value) (macro table lines 448-451, operators at
lines 144-148). -/
def applyIncDecOp {α : Type} [Add α] [Sub α] [One α]
    (o : IncDecOperator) (lhs : Vector α) : Vector α × Vector α :=
  match o with
  | .PostIncrement => Vector.postIncrement lhs
  | .PreIncrement => Vector.preIncrement lhs
  | .PostDecrement => Vector.postDecrement lhs
  | .PreDecrement => Vector.preDecrement lhs

/-- The two-argument `conditional_assign` family (macro lines 441-452): each
of the four expansions reads `return mask.isFull() ? (expr) : lhs;` where
`expr` applies the increment/decrement operator to `lhs` by reference.
Result is (updated lhs, returned value). -/
def conditional_assign_incdec {α : Type} [Add α] [Sub α] [One α]
    (o : IncDecOperator) (lhs : Vector α) (mask : Mask) : Vector α × Vector α :=
  match o with
  | .PostIncrement => if mask.isFull then Vector.postIncrement lhs else (lhs, lhs)
  | .PreIncrement => if mask.isFull then Vector.preIncrement lhs else (lhs, lhs)
  | .PostDecrement => if mask.isFull then Vector.postDecrement lhs else (lhs, lhs)
  | .PreDecrement => if mask.isFull then Vector.preDecrement lhs else (lhs, lhs)

/-- Modelled C++ semantics of builtin `&` on integers: two's-complement
bitwise and, which on unbounded integers is `Int.land`. -/
instance : AndOp Int := ⟨Int.land⟩

/-- Modelled C++ semantics of builtin `|` on integers. -/
instance : OrOp Int := ⟨Int.lor⟩

/-- Modelled C++ semantics of builtin `^` on integers. -/
instance : Xor Int := ⟨Int.xor⟩

/-- Modelled C++ semantics of the builtin IEEE-754 floating element values
needed for the NaN behaviour of the contract: a quiet NaN and the positive
zero.  The contract admits floating element types
(`static_assert(std::is_arithmetic<T>::value)`, line 44). -/
inductive IEEEScalar where
  | nan
  | zero
deriving DecidableEq

/-- Modelled C++ semantics of builtin IEEE-754 `+` on these values: any NaN
operand propagates, and `0 + 0 = 0` (exact, no rounding occurs). -/
instance : Add IEEEScalar where
  add a b :=
    match a, b with
    | .zero, .zero => .zero
    | _, _ => .nan

instance : Zero IEEEScalar := ⟨IEEEScalar.zero⟩

/-- Modelled C++ semantics of builtin IEEE-754 `==` on these values: every
comparison with a NaN operand is false; equal zeros compare true. -/
def IEEEScalar.ieeeEq : IEEEScalar → IEEEScalar → Bool
  | .zero, .zero => true
  | _, _ => false

/-- `operator==` from the `OPcmp` macro (lines 191-193), `Mask(m_data ==
x.m_data)`, for an element type whose builtin `==` is the given boolean
function.  For integer element types the builtin `==` is decidable equality
(`Vector.cmpEq`); for IEEE floating element types it is `IEEEScalar.ieeeEq`,
which is not reflexive on NaN. -/
def Vector.cmpEqBy {α : Type} (eq : α → α → Bool) (v x : Vector α) : Mask :=
  ⟨eq v.m_data x.m_data⟩

/-- Claim C1: for every lhs, every full mask and every rhs, the three-argument
conditional_assign applies the corresponding unmasked compound operator
directly to lhs; and in the concrete scenario, v = Vector<int> broadcasting 5
compared > Vector<int>(3) yields an all-true mask, v.sum(mask) = 5,
mask.isFull() = true, and conditional_assign<PlusAssign>(v, mask,
Vector<int>(2)) leaves v equal to 7. -/
theorem conditional_assign_full_mask_fast_path {α : Type} [Add α] [Sub α] [Mul α]
    [Div α] [Mod α] [Xor α] [AndOp α] [OrOp α] [ShiftLeft α] [ShiftRight α]
    (o : AssignOperator) (lhs : Vector α) (m : Mask) (rhs : Vector α)
    (h : m.isFull = true) :
    conditional_assign o lhs m rhs = applyAssignOp o lhs rhs ∧
    (Vector.cmpGt (Vector.broadcast (5 : Int)) (Vector.broadcast 3) = Mask.mk true ∧
     Vector.sumMasked (Vector.broadcast (5 : Int)) (Mask.mk true) = 5 ∧
     (Mask.mk true).isFull = true ∧
     conditional_assign .PlusAssign (Vector.broadcast (5 : Int)) (Mask.mk true)
       (Vector.broadcast 2) = Vector.broadcast 7) := by
  constructor
  · cases o <;> simp [conditional_assign, applyAssignOp, h]
  · exact ⟨by decide, by decide, rfl, by decide⟩

/-- Witness for C1 at Op = PlusAssign, lhs = 5, mask full, rhs = 2. -/
theorem conditional_assign_full_mask_fast_path_witness :
    conditional_assign .PlusAssign (Vector.broadcast (5 : Int)) (Mask.mk true)
      (Vector.broadcast 2) =
      applyAssignOp .PlusAssign (Vector.broadcast 5) (Vector.broadcast 2) :=
  (conditional_assign_full_mask_fast_path AssignOperator.PlusAssign
    (Vector.broadcast (5 : Int)) (Mask.mk true) (Vector.broadcast 2) rfl).1

/-- Claim C2: the two-argument conditional_assign for the four
increment/decrement tags returns mask.isFull() ? (the result of applying the
operator to lhs) : lhs; under a non-full mask lhs is left unchanged and the
original value is returned. -/
theorem conditional_assign_incdec_full_or_identity {α : Type} [Add α] [Sub α] [One α]
    (o : IncDecOperator) (lhs : Vector α) (m : Mask) :
    conditional_assign_incdec o lhs m =
      (if m.isFull then applyIncDecOp o lhs else (lhs, lhs)) ∧
    (m.isFull = false → conditional_assign_incdec o lhs m = (lhs, lhs)) := by
  constructor
  · cases o <;> rfl
  · intro h; cases o <;> simp [conditional_assign_incdec, h]

/-- Witness for C2 at PreIncrement with a non-full mask: state and returned
value are both the original vector. -/
theorem conditional_assign_incdec_full_or_identity_witness :
    conditional_assign_incdec .PreIncrement (Vector.broadcast (5 : Int)) (Mask.mk false) =
      (Vector.broadcast 5, Vector.broadcast 5) :=
  (conditional_assign_incdec_full_or_identity IncDecOperator.PreIncrement
    (Vector.broadcast (5 : Int)) (Mask.mk false)).2 rfl

/-- Claim C3 counterexample: with m1 already true (here m2 true as well),
pack performs no absorption — the guard !m1 && m2 is false and the entire
state is unchanged — yet it returns true (the value of m1), so the return
value is not "whether absorption happened". -/
theorem pack_return_not_absorption :
    (Vector.pack (Vector.mk (5 : Int)) (Mask.mk true) (Vector.mk 7) (Mask.mk true)).ret
      = true ∧
    Vector.packAbsorbed (Mask.mk true) (Mask.mk true) = false ∧
    Vector.pack (Vector.mk (5 : Int)) (Mask.mk true) (Vector.mk 7) (Mask.mk true) =
      ⟨Vector.mk 5, Mask.mk true, Mask.mk true, true⟩ := by
  decide

/-- Claim C3 amended: pack returns true when absorption (m1 false, m2 true)
happened, and otherwise returns the original value of m1 — so it also returns
true, without any state change, when m1 was already true. -/
theorem pack_return_absorbed_or_m1 {α : Type} (v : Vector α) (m1 : Mask)
    (v2 : Vector α) (m2 : Mask) :
    (Vector.pack v m1 v2 m2).ret = (Vector.packAbsorbed m1 m2 || m1.data) ∧
    (Vector.packAbsorbed m1 m2 = true →
      Vector.pack v m1 v2 m2 = ⟨⟨v2.m_data⟩, Mask.mk true, Mask.mk false, true⟩) ∧
    (Vector.packAbsorbed m1 m2 = false →
      Vector.pack v m1 v2 m2 = ⟨v, m1, m2, m1.data⟩) := by
  rcases m1 with ⟨b1⟩
  rcases m2 with ⟨b2⟩
  cases b1 <;> cases b2 <;>
    simp [Vector.pack, Vector.packAbsorbed, Mask.data]

/-- Witness for the amended C3 at an absorbing input. -/
theorem pack_return_absorbed_or_m1_witness :
    Vector.pack (Vector.mk (5 : Int)) (Mask.mk false) (Vector.mk 7) (Mask.mk true) =
      ⟨Vector.mk 7, Mask.mk true, Mask.mk false, true⟩ :=
  (pack_return_absorbed_or_m1 (Vector.mk (5 : Int)) (Mask.mk false) (Vector.mk 7)
    (Mask.mk true)).2.1 rfl

/-- Claim C4: with m1 = false and m2 = true, pack returns true, m1 becomes
true, m2 becomes false and the vector takes v2's prior value; with m1 = true,
pack returns true and leaves the vector, m1 and m2 unchanged. -/
theorem pack_scenarios {α : Type} (v v2 : Vector α) :
    (Vector.pack v (Mask.mk false) v2 (Mask.mk true) =
      ⟨v2, Mask.mk true, Mask.mk false, true⟩) ∧
    ∀ m2 : Mask, Vector.pack v (Mask.mk true) v2 m2 = ⟨v, Mask.mk true, m2, true⟩ := by
  refine ⟨?_, fun m2 => ?_⟩
  · simp [Vector.pack, Mask.data]
  · simp [Vector.pack, Mask.data]

/-- Witness for C4 at concrete vectors. -/
theorem pack_scenarios_witness :
    Vector.pack (Vector.mk (5 : Int)) (Mask.mk false) (Vector.mk 9) (Mask.mk true) =
      ⟨Vector.mk 9, Mask.mk true, Mask.mk false, true⟩ :=
  (pack_scenarios (Vector.mk (5 : Int)) (Vector.mk 9)).1

/-- Claim C5: the masked sum over an empty lane selection is the additive
identity 0 and the masked product is the multiplicative identity 1; when the
mask selects the lane both return the lane's value. -/
theorem masked_sum_product_identities {α : Type} [Zero α] [One α] (v : Vector α) :
    Vector.sumMasked v (Mask.mk false) = 0 ∧
    Vector.productMasked v (Mask.mk false) = 1 ∧
    Vector.sumMasked v (Mask.mk true) = v.m_data ∧
    Vector.productMasked v (Mask.mk true) = v.m_data :=
  ⟨rfl, rfl, rfl, rfl⟩

/-- Witness for C5 at the integer vector 5. -/
theorem masked_sum_product_identities_witness :
    Vector.sumMasked (Vector.mk (5 : Int)) (Mask.mk false) = 0 :=
  (masked_sum_product_identities (Vector.mk (5 : Int))).1

/-- Claim C6 counterexample: the contract admits IEEE floating element
types, and over them a NaN lane falsifies v + Vector(0) == v: the sum
NaN + 0 is NaN, the builtin comparison NaN == NaN is false, so operator==
returns the all-false mask, not the all-true one the claim requires. -/
theorem add_zero_identity_fails_on_nan :
    Vector.cmpEqBy IEEEScalar.ieeeEq
        (Vector.add (Vector.mk IEEEScalar.nan) (Vector.broadcast 0))
        (Vector.mk IEEEScalar.nan) = Mask.mk false ∧
    ¬(Vector.cmpEqBy IEEEScalar.ieeeEq
        (Vector.add (Vector.mk IEEEScalar.nan) (Vector.broadcast 0))
        (Vector.mk IEEEScalar.nan) = Mask.mk true) := by
  decide

/-- Claim C6 amended: for all v over an element type whose builtin == is
decidable equality and where 0 and 1 are the additive and multiplicative
identities — which covers all integer element types the contract admits,
exact or modular — the comparisons v + Vector(0) == v and v * Vector(1) == v
yield the all-true mask; IEEE floating element types are excluded, since a
NaN lane yields a false mask. -/
theorem add_zero_mul_one_identity_mask {α : Type} [AddZeroClass α] [MulOneClass α]
    [DecidableEq α] (v : Vector α) :
    (Vector.cmpEq (Vector.add v (Vector.broadcast 0)) v).m_data = true ∧
    (Vector.cmpEq (Vector.mul v (Vector.broadcast 1)) v).m_data = true := by
  constructor <;> simp [Vector.cmpEq, Vector.add, Vector.mul, Vector.broadcast]

/-- Witness for C6 at the integer vector 5. -/
theorem add_zero_mul_one_identity_mask_witness :
    (Vector.cmpEq (Vector.add (Vector.mk (5 : Int)) (Vector.broadcast 0))
      (Vector.mk 5)).m_data = true :=
  (add_zero_mul_one_identity_mask (Vector.mk (5 : Int))).1

/-- Claim C7: v.shifted(0) == v (all-true mask, indeed equality), and
v.shifted(Size) with Size = 1 and no fill argument is the all-zero vector. -/
theorem shifted_zero_and_size {α : Type} [Zero α] [DecidableEq α] (v : Vector α) :
    (Vector.cmpEq (Vector.shifted v 0) v).m_data = true ∧
    Vector.shifted v 0 = v ∧
    Vector.shifted v 1 = Vector.zero := by
  refine ⟨?_, rfl, rfl⟩
  simp [Vector.cmpEq, Vector.shifted]

/-- Witness for C7 at the integer vector 5. -/
theorem shifted_zero_and_size_witness :
    Vector.shifted (Vector.mk (5 : Int)) 0 = Vector.mk 5 :=
  (shifted_zero_and_size (Vector.mk (5 : Int))).2.1

/-- Claim C8 counterexample: the no-fill form shifted(5) is not rejected by
any assertion — it simply returns the zero vector — and the fill form accepts
amount 1 even though 1 lies outside [-(Size-1), Size-1] = {0}; only amounts
outside [-1, 1] trip the fill form's assertion. -/
theorem shifted_no_assert_out_of_range :
    Vector.shifted (Vector.mk (3 : Int)) 5 = Vector.zero ∧
    Vector.shiftedFill (Vector.mk (3 : Int)) 1 (Vector.mk 7) = some (Vector.mk 7) ∧
    Vector.shiftedFill (Vector.mk (3 : Int)) 5 (Vector.mk 7) = none := by
  decide

/-- Claim C8 amended: the no-fill form shifted(amount) carries no assertion
and returns Zero() for every nonzero amount; the fill form's debug assertion
accepts exactly the amounts in [-1, 1] and rejects all others; within [-1, 1]
both forms are assertion-free. -/
theorem shifted_assert_semantics {α : Type} [Zero α] (v s : Vector α) (amount : Int) :
    (Vector.shifted v amount = if amount = 0 then v else Vector.zero) ∧
    (-1 ≤ amount ∧ amount ≤ 1 →
      Vector.shiftedFill v amount s = some (if amount = 0 then v else s)) ∧
    (¬(-1 ≤ amount ∧ amount ≤ 1) → Vector.shiftedFill v amount s = none) := by
  refine ⟨rfl, fun h => ?_, fun h => ?_⟩
  · simp [Vector.shiftedFill, h]
  · simp [Vector.shiftedFill, h]

/-- Witness for the amended C8 at amount 1, inside the assertion's range. -/
theorem shifted_assert_semantics_witness :
    Vector.shiftedFill (Vector.mk (3 : Int)) 1 (Vector.mk 9) = some (Vector.mk 9) :=
  (shifted_assert_semantics (Vector.mk (3 : Int)) (Vector.mk 9) 1).2.1
    ⟨by decide, by decide⟩

/-- Claim C9: the masked min and max of the reference backend ignore the mask
entirely, so for every mask — including the empty selection — they equal the
unmasked min and max (the lane's value). -/
theorem masked_min_max_ignore_mask {α : Type} (v : Vector α) (m : Mask) :
    Vector.minMasked v m = Vector.min v ∧ Vector.maxMasked v m = Vector.max v :=
  ⟨rfl, rfl⟩

/-- Witness for C9 at the integer vector 5 and the empty mask. -/
theorem masked_min_max_ignore_mask_witness :
    Vector.minMasked (Vector.mk (5 : Int)) (Mask.mk false) =
      Vector.min (Vector.mk 5) :=
  (masked_min_max_ignore_mask (Vector.mk (5 : Int)) (Mask.mk false)).1

/-- Claim C10: under a non-full mask, every one of the eleven value-taking
conditional_assign forms leaves lhs completely unchanged. -/
theorem conditional_assign_partial_mask_noop {α : Type} [Add α] [Sub α] [Mul α]
    [Div α] [Mod α] [Xor α] [AndOp α] [OrOp α] [ShiftLeft α] [ShiftRight α]
    (o : AssignOperator) (lhs : Vector α) (m : Mask) (rhs : Vector α)
    (h : m.isFull = false) :
    conditional_assign o lhs m rhs = lhs := by
  cases o <;> simp [conditional_assign, h]

/-- Witness for C10 at Op = MinusAssign with an empty mask. -/
theorem conditional_assign_partial_mask_noop_witness :
    conditional_assign .MinusAssign (Vector.broadcast (5 : Int)) (Mask.mk false)
      (Vector.broadcast 2) = Vector.broadcast 5 :=
  conditional_assign_partial_mask_noop AssignOperator.MinusAssign
    (Vector.broadcast (5 : Int)) (Mask.mk false) (Vector.broadcast 2) rfl

end Scalar
end Vc
